import Mathlib

/-!
Verification of the MHF-Simulator core: a shallow embedding of the
CVD risk scorer (`src/mhf/risk_engine.py`), the mortality scorer
(`src/mhf/mortality.py`) and the distribution sampler
(`src/mhf/sampling.py`).

Python floats are modelled by `ℚ`, with `Option ℚ` when a value may be
NaN (`none` = NaN).  Python's dynamic row values are modelled by the
`Value` type; a pandas row is a list of key/value pairs, `row.get`
returning `None` (here `Value.vnone`) for an absent key.
-/

namespace MHF

/-- A dynamically typed Python value as it occurs in a data row:
`None`, a bool, a finite number (int or float), the float NaN, or a
string.  (Infinite floats do not occur in the pipelines modelled here.) -/
inductive Value where
  | vnone  : Value
  | vbool  : Bool → Value
  | vnum   : ℚ → Value
  | vnan   : Value
  | vstr   : String → Value
deriving DecidableEq

/-- A pandas row: an association list of column name to value. -/
abbrev Row := List (String × Value)

/-- `row.get(key, default)` of pandas: the stored value, or the default
when the key is absent. -/
def Row.getD (r : Row) (k : String) (d : Value) : Value :=
  match r.find? (fun p => p.1 == k) with
  | some p => p.2
  | none => d

/-- `row.get(key)` of pandas: the stored value, or `None` when absent. -/
def Row.get (r : Row) (k : String) : Value :=
  Row.getD r k Value.vnone

/-- Python `str.strip()`: drop leading and trailing whitespace (the
ASCII whitespace class suffices for the data the source handles). -/
def pyStrip (s : String) : String :=
  ⟨((s.data.dropWhile Char.isWhitespace).reverse.dropWhile Char.isWhitespace).reverse⟩

/-- Python `str.lower()` (ASCII case folding suffices for the token sets
compared against in the source). -/
def pyLower (s : String) : String := ⟨s.data.map Char.toLower⟩

/-- Whether the first list is a prefix of the second. -/
def startsWithList : List Char → List Char → Bool
  | _, [] => true
  | [], _ :: _ => false
  | c :: cs, d :: ds => c == d && startsWithList cs ds

/-- Python `s.startswith(pre)`. -/
def pyStartsWith (s pre : String) : Bool := startsWithList s.data pre.data

/-- Whether the second list occurs as a contiguous run of the first. -/
def containsList : List Char → List Char → Bool
  | [], needle => needle.isEmpty
  | c :: rest, needle => startsWithList (c :: rest) needle || containsList rest needle

/-- Python's `needle in hay` substring test. -/
def pyContains (hay needle : String) : Bool :=
  containsList hay.data needle.data

/-- Python `round(q)`: round half to even, returning an integer. -/
def pyRound (q : ℚ) : ℤ :=
  let f := ⌊q⌋
  let r := q - (f : ℚ)
  if r < 1/2 then f
  else if 1/2 < r then f + 1
  else if 2 ∣ f then f else f + 1

/-- Decimal digits to a natural number; `none` when empty or non-digit. -/
def parseNatDigits (cs : List Char) : Option ℕ :=
  if cs = [] then none
  else if cs.all Char.isDigit then
    some (cs.foldl (fun acc c => acc * 10 + (c.toNat - 48)) 0)
  else none

/-- Split a character list at every occurrence of the separator. -/
def splitOnChar (c : Char) : List Char → List (List Char)
  | [] => [[]]
  | d :: ds =>
    let r := splitOnChar c ds
    if d == c then [] :: r
    else
      match r with
      | [] => [[d]]
      | g :: gs => (d :: g) :: gs

/-- Python `float(s)` on a string.  `none` models a raised `ValueError`;
`some none` models the float NaN; `some (some q)` a finite float.
Modelled for optional sign, plain decimal notation and the `nan`
keyword; exponent notation, digit underscores and infinities are
outside the rational model (mapped to `none`) and are never exercised
by the pipelines' data.  Surrounding whitespace and case are ignored,
as in Python. -/
def pyParseFloat (s : String) : Option (Option ℚ) :=
  let t := (pyLower (pyStrip s)).data
  let sign : ℚ :=
    match t with
    | '-' :: _ => -1
    | _ => 1
  let body : List Char :=
    match t with
    | '-' :: rest => rest
    | '+' :: rest => rest
    | _ => t
  if body = [('n'), ('a'), ('n')] then some none
  else
    match splitOnChar ('.') body with
    | [ip] =>
      match parseNatDigits ip with
      | some n => some (some (sign * (n : ℚ)))
      | none => none
    | [ip, fp] =>
      if ip = [] && fp = [] then none
      else
        let ipn := if ip = [] then some 0 else parseNatDigits ip
        let fpn := if fp = [] then some 0 else parseNatDigits fp
        match ipn, fpn with
        | some a, some b =>
          some (some (sign * ((a : ℚ) + (b : ℚ) / (10 : ℚ) ^ fp.length)))
        | _, _ => none
    | _ => none

/-- Python `str(x)`.  Numeric representations are modelled as the
integer/ratio digit string; all uses in the source only compare the
result against alphabetic token sets or search it for alphabetic
substrings, which a numeric representation can never match. -/
def pyStr : Value → String
  | Value.vnone => "None"
  | Value.vbool true => "True"
  | Value.vbool false => "False"
  | Value.vnan => "nan"
  | Value.vnum q =>
      if q.den = 1 then toString q.num
      else toString q.num ++ ("/") ++ toString q.den
  | Value.vstr s => s

namespace RiskEngine

/-- `_to_float` of `risk_engine.py`: float or NaN, never silently zero.
`none` models NaN (either a NaN input, a parse failure, or the raised
exception the `except` clause maps to NaN). -/
def _to_float (x : Value) : Option ℚ :=
  match x with
  | Value.vnone => none
  | Value.vbool b => some (if b then 1 else 0)
  | Value.vnum q => some q
  | Value.vnan => none
  | Value.vstr s =>
    match pyParseFloat s with
    | none => none
    | some r => r

/-- `_f` of `risk_engine.py` (legacy helper): `float(x)`, with a raised
exception mapped to `0.0`.  A NaN input (or the string `nan`) passes
through as NaN (`none`). -/
def _f (x : Value) : Option ℚ :=
  match x with
  | Value.vnone => some 0
  | Value.vbool b => some (if b then 1 else 0)
  | Value.vnum q => some q
  | Value.vnan => none
  | Value.vstr s =>
    match pyParseFloat s with
    | none => some 0
    | some r => r

/-- `_to_bool` of `risk_engine.py`: `None` is false, bools are
themselves, numbers are `!= 0.0` (NaN compares unequal to 0, hence
true), strings are stripped, lowercased and matched against the truthy
token set. -/
def _to_bool (x : Value) : Bool :=
  match x with
  | Value.vnone => false
  | Value.vbool b => b
  | Value.vnum q => decide (q ≠ 0)
  | Value.vnan => true
  | Value.vstr s =>
    decide (pyLower (pyStrip s) ∈ [("1"), ("true"), ("t"), ("yes"), ("y"), ("on")])

/-- `_is_male` of `risk_engine.py`. -/
def _is_male (x : Value) : Bool :=
  match x with
  | Value.vnone => false
  | v => decide (pyLower (pyStrip (pyStr v)) ∈ [("m"), ("male"), ("man"), ("masculine")])

/-- mg/dL per mmol/L cholesterol conversion constant. -/
def MGDL_PER_MMOLL : ℚ := 3867/100

/-- `_ensure_mmol_tc`: unit heuristic — a value above 20 is taken to be
mg/dL and divided by the conversion constant; NaN passes through. -/
def _ensure_mmol_tc (value : Option ℚ) : Option ℚ :=
  match value with
  | none => none
  | some q => if 20 < q then some (q / MGDL_PER_MMOLL) else some q

/-- `_round2`: `round(x + 1e-12, 2)` with NaN passed through.  Python's
binary-float round-half-even at 2 decimals is modelled as rational
round-half-even after the same `1e-12` shift. -/
def _round2 (v : Option ℚ) : Option ℚ :=
  match v with
  | none => none
  | some q => some ((pyRound ((q + 1/1000000000000) * 100) : ℚ) / 100)

/-- Age points table for men (lower bound, points). -/
def AGE_THRESH_M : List (ℤ × ℤ) :=
  [(0, 0), (30, 0), (35, 2), (40, 5), (45, 6), (50, 8),
   (55, 10), (60, 11), (65, 12), (70, 14), (75, 15)]

/-- Age points table for women (lower bound, points). -/
def AGE_THRESH_W : List (ℤ × ℤ) :=
  [(0, 0), (30, 0), (35, 2), (40, 4), (45, 5), (50, 7),
   (55, 8), (60, 9), (65, 10), (70, 11), (75, 12)]

/-- `_age_points_ccs`: integer age points via the sex-specific
lower-bound table (highest lower bound `≤` the rounded age wins);
`none` for NaN or negative age. -/
def _age_points_ccs (age : Value) (male : Bool) : Option ℤ :=
  match _to_float age with
  | none => none
  | some a =>
    if a < 0 then none
    else
      let ai := pyRound a
      let table := if male then AGE_THRESH_M else AGE_THRESH_W
      match table.reverse.find? (fun p => decide (p.1 ≤ ai)) with
      | some p => some p.2
      | none => some (table.getLastD (0, 0)).2

/-- `_hdl_points_ccs`: HDL band points (mmol/L), `none` for NaN. -/
def _hdl_points_ccs (hdl_mmol : Option ℚ) : Option ℤ :=
  match _round2 hdl_mmol with
  | none => none
  | some v =>
    if 16/10 ≤ v then some (-2)
    else if 13/10 ≤ v ∧ v < 16/10 then some (-1)
    else if 12/10 ≤ v ∧ v < 13/10 then some 0
    else if 9/10 ≤ v ∧ v < 12/10 then some 1
    else some 2

/-- `_tc_points_ccs`: sex-specific total-cholesterol band points
(mmol/L), `none` for NaN. -/
def _tc_points_ccs (tc_mmol : Option ℚ) (male : Bool) : Option ℤ :=
  match _round2 tc_mmol with
  | none => none
  | some v =>
    if male then
      if v < 41/10 then some 0
      else if 41/10 ≤ v ∧ v < 52/10 then some 1
      else if 52/10 ≤ v ∧ v < 62/10 then some 2
      else if 62/10 ≤ v ∧ v < 72/10 then some 3
      else some 4
    else
      if v < 41/10 then some 0
      else if 41/10 ≤ v ∧ v < 52/10 then some 1
      else if 52/10 ≤ v ∧ v < 62/10 then some 3
      else if 62/10 ≤ v ∧ v < 72/10 then some 4
      else some 5

/-- `_sbp_points_ccs`: systolic-BP points from the sex- and
treatment-specific closed bands over the rounded value; `none` for NaN
or when no band matches (negative SBP). -/
def _sbp_points_ccs (sbp : Value) (treated : Bool) (male : Bool) : Option ℤ :=
  match _to_float sbp with
  | none => none
  | some s =>
    let bands : List (ℤ × ℤ × ℤ) :=
      if male then
        if treated then
          [(0, 119, 0), (120, 129, 2), (130, 139, 3), (140, 149, 4), (150, 159, 4), (160, 9999, 5)]
        else
          [(0, 119, -2), (120, 129, 0), (130, 139, 1), (140, 149, 2), (150, 159, 2), (160, 9999, 3)]
      else
        if treated then
          [(0, 119, -1), (120, 129, 2), (130, 139, 3), (140, 149, 5), (150, 159, 6), (160, 9999, 7)]
        else
          [(0, 119, -3), (120, 129, 0), (130, 139, 1), (140, 149, 2), (150, 159, 4), (160, 9999, 5)]
    let si := pyRound s
    match bands.find? (fun b => decide (b.1 ≤ si ∧ si ≤ b.2.1)) with
    | some b => some b.2.2
    | none => none

def SMOKER_PTS_M : ℤ := 4
def SMOKER_PTS_W : ℤ := 3
def DIAB_PTS_M : ℤ := 3
def DIAB_PTS_W : ℤ := 4

/-- `_smoker_points_ccs`: men 4, women 3, zero when not a smoker.
Always an integer, never indeterminate. -/
def _smoker_points_ccs (male : Bool) (smoker : Value) : ℤ :=
  if _to_bool smoker then (if male then SMOKER_PTS_M else SMOKER_PTS_W) else 0

/-- `_diabetes_points_ccs`: men 3, women 4, zero when no diabetes.
Always an integer, never indeterminate. -/
def _diabetes_points_ccs (male : Bool) (diabetes : Value) : ℤ :=
  if _to_bool diabetes then (if male then DIAB_PTS_M else DIAB_PTS_W) else 0

/-- Points to 10-year risk chart for men. -/
def PTS_TO_RISK_M : List (ℤ × ℚ) :=
  [(-3, 9/10), (-2, 11/10), (-1, 14/10), (0, 16/10), (1, 19/10), (2, 23/10),
   (3, 28/10), (4, 33/10), (5, 39/10), (6, 47/10), (7, 56/10), (8, 67/10),
   (9, 79/10), (10, 94/10), (11, 112/10), (12, 132/10), (13, 156/10),
   (14, 184/10), (15, 216/10), (16, 253/10), (17, 294/10)]

/-- Points to 10-year risk chart for women. -/
def PTS_TO_RISK_W : List (ℤ × ℚ) :=
  [(-3, 9/10), (-2, 9/10), (-1, 1), (0, 12/10), (1, 15/10), (2, 17/10),
   (3, 2), (4, 24/10), (5, 28/10), (6, 33/10), (7, 39/10), (8, 45/10),
   (9, 53/10), (10, 63/10), (11, 73/10), (12, 86/10), (13, 10),
   (14, 117/10), (15, 137/10), (16, 159/10), (17, 185/10), (18, 215/10),
   (19, 248/10), (20, 285/10)]

/-- Python `dict.get(k, default)` over an association list. -/
def dictGetD (d : List (ℤ × ℚ)) (k : ℤ) (dflt : ℚ) : ℚ :=
  match d.find? (fun p => p.1 == k) with
  | some p => p.2
  | none => dflt

/-- `_risk_from_points_ccs`: saturating chart lookup — totals at or
below -3 clamp to the -3 entry, totals at or above the sex-specific
ceiling (18 men, 21 women) return 30.0, and any other total is looked
up with default 30.0. -/
def _risk_from_points_ccs (total_pts : ℤ) (male : Bool) : ℚ :=
  if male then
    if total_pts ≤ -3 then dictGetD PTS_TO_RISK_M (-3) 30
    else if 18 ≤ total_pts then 30
    else dictGetD PTS_TO_RISK_M total_pts 30
  else
    if total_pts ≤ -3 then dictGetD PTS_TO_RISK_W (-3) 30
    else if 21 ≤ total_pts then 30
    else dictGetD PTS_TO_RISK_W total_pts 30

/-- `framingham_points_from_row`: the six components (the source's
explicit NaN guard around `_ensure_mmol_tc` is the identity, since the
heuristic passes NaN through).  Smoker and diabetes points are plain
integers, so the source's all-or-nothing `None` check can only fire on
the four `Option` components; the total is their sum in source order. -/
def framingham_points_from_row (row : Row) : Option ℤ :=
  match _age_points_ccs (Row.get row ("age")) (_is_male (Row.get row ("sex"))),
        _hdl_points_ccs (_ensure_mmol_tc (_to_float (Row.get row ("hdl")))),
        _tc_points_ccs (_ensure_mmol_tc (_to_float (Row.get row ("tc")))) (_is_male (Row.get row ("sex"))),
        _sbp_points_ccs (Row.get row ("sbp")) (_to_bool (Row.get row ("on_bp_meds"))) (_is_male (Row.get row ("sex"))) with
  | some a, some h, some t, some s =>
      some (a + h + t + s
            + _smoker_points_ccs (_is_male (Row.get row ("sex"))) (Row.get row ("smoker"))
            + _diabetes_points_ccs (_is_male (Row.get row ("sex"))) (Row.get row ("diabetes")))
  | _, _, _, _ => none

/-- `framingham_risk_from_row`: 10-year risk percentage, NaN (`none`)
when the points are indeterminate. -/
def framingham_risk_from_row (row : Row) : Option ℚ :=
  match framingham_points_from_row row with
  | none => none
  | some pts => some (_risk_from_points_ccs pts (_is_male (Row.get row ("sex"))))

/-- `framingham_risk_row`: backwards-compatible wrapper. -/
def framingham_risk_row (row : Row) : Option ℚ :=
  framingham_risk_from_row row

/-- `np.clip(x, lo, hi)`: the lower bound is applied first, then the
upper bound. -/
def npClip (x lo hi : ℚ) : ℚ := min (max x lo) hi

/-- `mhf_risk_row`: the Framingham percentage discounted by the capped
MET-minutes factor, clamped to `[0, 100]`.  A NaN base propagates
through the arithmetic and the clip (`none`); a NaN `met_min` yields
reduction `min(0.3, nan) = 0.3` under Python's two-argument `min`. -/
def mhf_risk_row (row : Row) : Option ℚ :=
  match framingham_risk_row row, _f (Row.get row ("met_min")) with
  | some base, some met =>
      some (npClip (base * (1 - min (3/10) (3/10 * (met / 1000)))) 0 100)
  | some base, none =>
      some (npClip (base * (1 - 3/10)) 0 100)
  | none, _ => none

end RiskEngine

namespace Mortality

/-- `_to_float` of `mortality.py` (textually identical to the risk
engine's helper). -/
def _to_float (x : Value) : Option ℚ :=
  match x with
  | Value.vnone => none
  | Value.vbool b => some (if b then 1 else 0)
  | Value.vnum q => some q
  | Value.vnan => none
  | Value.vstr s =>
    match pyParseFloat s with
    | none => none
    | some r => r

/-- `_to_bool` of `mortality.py` (textually identical to the risk
engine's helper). -/
def _to_bool (x : Value) : Bool :=
  match x with
  | Value.vnone => false
  | Value.vbool b => b
  | Value.vnum q => decide (q ≠ 0)
  | Value.vnan => true
  | Value.vstr s =>
    decide (pyLower (pyStrip s) ∈ [("1"), ("true"), ("t"), ("yes"), ("y"), ("on")])

/-- `_is_male` of `mortality.py`. -/
def _is_male (x : Value) : Bool :=
  match x with
  | Value.vnone => false
  | v => decide (pyLower (pyStrip (pyStr v)) ∈ [("m"), ("male"), ("man"), ("masculine")])

/-- `_smoking_status`: normalised smoking token.  Exact tokens map to
themselves; otherwise human labels are classified by substring
heuristics; otherwise the boolean `smoker` column decides between
`current_gt10` and `never`. -/
def _smoking_status (row : Row) : String :=
  let raw := pyLower (pyStrip (pyStr (Row.getD row ("smoking_status") (Value.vstr ("")))))
  if raw ∈ [("never"), ("former_gt1"), ("former_lt1"), ("current_le10"), ("current_gt10")] then raw
  else if pyContains raw ("never") then ("never")
  else if pyContains raw ("former") &&
          (pyContains raw (">") || pyContains raw ("gt") || pyContains raw ("1+") || pyContains raw ("over")) then
    ("former_gt1")
  else if pyContains raw ("former") &&
          (pyContains raw ("<") || pyContains raw ("lt") || pyContains raw ("under")) then
    ("former_lt1")
  else if pyContains raw ("current") then
    if pyContains raw ("10") &&
       (pyContains raw ("<=") || pyContains raw ("<=10") || pyContains raw ("le") || pyContains raw ("less")) then
      ("current_le10")
    else if pyContains raw ("10") &&
            (pyContains raw (">") || pyContains raw ("gt") || pyContains raw ("more")) then
      ("current_gt10")
    else ("current_gt10")
  else if _to_bool (Row.get row ("smoker")) then ("current_gt10")
  else ("never")

/-- Lee age bands (low, high, points); ages below 60 score 0. -/
def _LEE_AGE_BANDS : List (ℤ × ℤ × ℤ) :=
  [(60, 64, 1), (65, 69, 2), (70, 74, 3), (75, 79, 4), (80, 84, 5), (85, 200, 7)]

/-- `lee_points_from_row`: `none` when age is NaN or below 50;
otherwise the sum of age-band, sex, current-smoker, condition,
functional-difficulty and low-BMI points (condition and difficulty
flags in the source's dict order). -/
def lee_points_from_row (row : Row) : Option ℤ :=
  match _to_float (Row.get row ("age")) with
  | none => none
  | some age =>
    if age < 50 then none
    else
      let ai := pyRound age
      let agePts : ℤ :=
        match _LEE_AGE_BANDS.find? (fun b => decide (b.1 ≤ ai ∧ ai ≤ b.2.1)) with
        | some b => b.2.2
        | none => 0
      let sexPts : ℤ := if _is_male (Row.get row ("sex")) then 2 else 0
      let smokePts : ℤ := if (_smoking_status row).startsWith ("current") then 2 else 0
      let condPts : ℤ :=
        (if _to_bool (Row.get row ("diabetes")) then 1 else 0)
        + (if _to_bool (Row.get row ("non_skin_cancer")) then 2 else 0)
        + (if _to_bool (Row.get row ("copd")) then 2 else 0)
        + (if _to_bool (Row.get row ("heart_failure")) then 2 else 0)
      let funcPts : ℤ :=
        (if _to_bool (Row.get row ("difficulty_bathing")) then 2 else 0)
        + (if _to_bool (Row.get row ("difficulty_managing_money")) then 2 else 0)
        + (if _to_bool (Row.get row ("difficulty_walking")) then 2 else 0)
      let bmiPts : ℤ :=
        match _to_float (Row.get row ("bmi")) with
        | none => 0
        | some b => if b < 25 then 1 else 0
      some (agePts + sexPts + smokePts + condPts + funcPts + bmiPts)

/-- `_sleep_points`: C-score sleep component; `none` for NaN hours. -/
def _sleep_points (hours : Value) : Option ℤ :=
  match _to_float hours with
  | none => none
  | some v =>
    if 7 ≤ v ∧ v ≤ 8 then some 10
    else if v = 6 ∨ v = 9 then some 7
    else if v = 5 ∨ v = 10 then some 3
    else if v < 5 ∨ 10 < v then some 0
    else if 6 < v ∧ v < 7 then some 7
    else if 8 < v ∧ v < 9 then some 7
    else if 5 < v ∧ v < 6 then some 3
    else if 9 < v ∧ v < 10 then some 3
    else some 0

end Mortality

namespace Sampling

/-- `np.clip(x, lo, hi)`: lower bound first, then upper bound. -/
def npClip (x lo hi : ℚ) : ℚ := min (max x lo) hi

/-- `np.random.uniform(low, high)` for one draw: `low + (high-low)·u`
with `u` the unit draw in `[0, 1)`.  NumPy performs no bound
validation, so the call never raises. -/
def sample_uniform (low high u : ℚ) : Except Unit ℚ :=
  Except.ok (low + (high - low) * u)

/-- `scipy.stats.truncnorm.rvs(a, b, loc=mean, scale=sd)` for one draw:
the library returns `loc + scale·z` for a standardised draw `z` inside
the truncation interval `[a, b]`, and rejects the arguments (raises)
when the interval `a < b` is empty. -/
def _truncnorm_samples (mean sd low high z : ℚ) : Except Unit ℚ :=
  if (low - mean) / sd < (high - mean) / sd then Except.ok (mean + sd * z)
  else Except.error ()

/-- `sample_normal`: truncated normal between the bounds. -/
def sample_normal (low high mean sd z : ℚ) : Except Unit ℚ :=
  _truncnorm_samples mean sd low high z

/-- The per-element redraw loop of `sample_lognormal`: while the
current draw is out of range and redraws remain (at most 10 rounds in
the source), replace it with the next draw. -/
def lognormal_redraw (low high : ℚ) : ℚ → List ℚ → ℚ
  | d, [] => d
  | d, r :: rs => if d < low ∨ high < d then lognormal_redraw low high r rs else d

/-- `sample_lognormal` for one element: redraw out-of-range values, then
hard-clamp with `np.clip`; never raises. -/
def sample_lognormal (low high d0 : ℚ) (redraws : List ℚ) : Except Unit ℚ :=
  Except.ok (npClip (lognormal_redraw low high d0 redraws) low high)

/-- `sample_beta_scaled` for one element: a Beta draw `raw ∈ [0, 1]`
linearly rescaled; no bound validation, never raises. -/
def sample_beta_scaled (low high raw : ℚ) : Except Unit ℚ :=
  Except.ok (low + raw * (high - low))

/-- Inverse-CDF category selection used by `np.random.choice` given
normalised probabilities. -/
def catIndex : List ℚ → ℚ → ℕ
  | [], _ => 0
  | p :: ps, u => if u < p then 0 else catIndex ps (u - p) + 1

/-- `sample_categorical`: renormalise the weights by their sum, then
draw indices with `np.random.choice`.  A zero sum makes the division
produce NaN (or infinite) probabilities, which `np.random.choice`
rejects with a `ValueError`; negative probabilities are likewise
rejected. -/
def sample_categorical (proportions : List ℚ) (draws : List ℚ) : Except Unit (List ℕ) :=
  let s := proportions.sum
  if s = 0 then Except.error ()
  else if (proportions.map (fun p => p / s)).any (fun p => decide (p < 0)) then Except.error ()
  else Except.ok (draws.map (catIndex (proportions.map (fun p => p / s))))

end Sampling

/-! ## Concrete rows for witnesses -/

/-- A fully valid CVD row except that `met_min` is absent. -/
def rowNoMet : Row :=
  [(("sex"), Value.vstr ("male")), (("age"), Value.vnum 55), (("tc"), Value.vnum (11/2)),
   (("hdl"), Value.vnum (11/10)), (("sbp"), Value.vnum 140), (("on_bp_meds"), Value.vbool true),
   (("smoker"), Value.vbool true), (("diabetes"), Value.vbool false)]

/-- The same row with `met_min = 1200`. -/
def rowFull : Row := (("met_min"), Value.vnum 1200) :: rowNoMet

/-- Every CVD field present and valid, but `age = None`. -/
def rowAgeNone : Row :=
  [(("sex"), Value.vstr ("male")), (("age"), Value.vnone), (("tc"), Value.vnum (11/2)),
   (("hdl"), Value.vnum (11/10)), (("sbp"), Value.vnum 140), (("on_bp_meds"), Value.vbool true),
   (("smoker"), Value.vbool true), (("diabetes"), Value.vbool false), (("met_min"), Value.vnum 1200)]

/-! ## Helper lemmas -/

/-- Prepending a binding for a different key leaves `Row.get` unchanged. -/
lemma rowGet_cons_ne (k' : String) (v : Value) (r : Row) (k : String)
    (h : (k' == k) = false) :
    Row.get ((k', v) :: r) k = Row.get r k := by
  simp [Row.get, Row.getD, List.find?_cons, h]

/-- A defaulted chart lookup stays between bounds that hold for every
chart entry and for the default. -/
lemma dictGetD_in_bounds (d : List (ℤ × ℚ)) (k : ℤ) (dflt lo hi : ℚ)
    (hd : ∀ x ∈ d, lo ≤ x.2 ∧ x.2 ≤ hi) (h1 : lo ≤ dflt) (h2 : dflt ≤ hi) :
    lo ≤ RiskEngine.dictGetD d k dflt ∧ RiskEngine.dictGetD d k dflt ≤ hi := by
  unfold RiskEngine.dictGetD
  rcases hfind : d.find? (fun p => p.1 == k) with _ | p <;> rw [hfind]
  · exact ⟨h1, h2⟩
  · exact hd p (List.mem_of_find?_eq_some hfind)

/-- Every chart percentage lies in `[0.9, 30]`. -/
lemma riskFromPoints_bounds (p : ℤ) (male : Bool) :
    9/10 ≤ RiskEngine._risk_from_points_ccs p male
      ∧ RiskEngine._risk_from_points_ccs p male ≤ 30 := by
  have hM : ∀ x ∈ RiskEngine.PTS_TO_RISK_M, (9/10 : ℚ) ≤ x.2 ∧ x.2 ≤ 30 := by
    intro x hx
    fin_cases hx <;> exact ⟨by norm_num, by norm_num⟩
  have hW : ∀ x ∈ RiskEngine.PTS_TO_RISK_W, (9/10 : ℚ) ≤ x.2 ∧ x.2 ≤ 30 := by
    intro x hx
    fin_cases hx <;> exact ⟨by norm_num, by norm_num⟩
  unfold RiskEngine._risk_from_points_ccs
  split_ifs <;>
    first
      | exact dictGetD_in_bounds _ _ _ _ _ hM (by norm_num) (by norm_num)
      | exact dictGetD_in_bounds _ _ _ _ _ hW (by norm_num) (by norm_num)
      | exact ⟨by norm_num, by norm_num⟩

/-- A computed Framingham percentage lies in `[0.9, 30]`. -/
lemma framinghamRisk_bounds (row : Row) (f : ℚ)
    (h : RiskEngine.framingham_risk_row row = some f) : 9/10 ≤ f ∧ f ≤ 30 := by
  unfold RiskEngine.framingham_risk_row RiskEngine.framingham_risk_from_row at h
  rcases hp : RiskEngine.framingham_points_from_row row with _ | pts
  · rw [hp] at h; cases h
  · rw [hp] at h
    simp only [Option.some_inj] at h
    rw [← h]
    exact riskFromPoints_bounds pts _

/-- Clipping to `[0, 100]` is the identity on a chart percentage. -/
lemma npClip_id (f : ℚ) (h1 : 0 ≤ f) (h2 : f ≤ 100) :
    RiskEngine.npClip f 0 100 = f := by
  unfold RiskEngine.npClip
  rw [max_eq_left h1, min_eq_left h2]

/-- The Framingham total reads none of the keys in a prepended binding
other than the eight clinical ones. -/
lemma framingham_points_cons_ne (k : String) (v : Value) (row : Row)
    (h1 : (k == ("sex")) = false) (h2 : (k == ("age")) = false)
    (h3 : (k == ("hdl")) = false) (h4 : (k == ("tc")) = false)
    (h5 : (k == ("sbp")) = false) (h6 : (k == ("on_bp_meds")) = false)
    (h7 : (k == ("smoker")) = false) (h8 : (k == ("diabetes")) = false) :
    RiskEngine.framingham_points_from_row ((k, v) :: row)
      = RiskEngine.framingham_points_from_row row := by
  simp only [RiskEngine.framingham_points_from_row,
    rowGet_cons_ne k v row ("sex") h1, rowGet_cons_ne k v row ("age") h2,
    rowGet_cons_ne k v row ("hdl") h3, rowGet_cons_ne k v row ("tc") h4,
    rowGet_cons_ne k v row ("sbp") h5, rowGet_cons_ne k v row ("on_bp_meds") h6,
    rowGet_cons_ne k v row ("smoker") h7, rowGet_cons_ne k v row ("diabetes") h8]

/-- The Framingham percentage likewise ignores a prepended binding for
any other key. -/
lemma framingham_risk_cons_ne (k : String) (v : Value) (row : Row)
    (h1 : (k == ("sex")) = false) (h2 : (k == ("age")) = false)
    (h3 : (k == ("hdl")) = false) (h4 : (k == ("tc")) = false)
    (h5 : (k == ("sbp")) = false) (h6 : (k == ("on_bp_meds")) = false)
    (h7 : (k == ("smoker")) = false) (h8 : (k == ("diabetes")) = false) :
    RiskEngine.framingham_risk_row ((k, v) :: row)
      = RiskEngine.framingham_risk_row row := by
  simp only [RiskEngine.framingham_risk_row, RiskEngine.framingham_risk_from_row,
    framingham_points_cons_ne k v row h1 h2 h3 h4 h5 h6 h7 h8,
    rowGet_cons_ne k v row ("sex") h1]

/-- The MHF score ignores a prepended binding for any key outside the
eight clinical ones and `met_min`; in particular a `cvd` binding. -/
lemma mhf_cons_ne (k : String) (v : Value) (row : Row)
    (h1 : (k == ("sex")) = false) (h2 : (k == ("age")) = false)
    (h3 : (k == ("hdl")) = false) (h4 : (k == ("tc")) = false)
    (h5 : (k == ("sbp")) = false) (h6 : (k == ("on_bp_meds")) = false)
    (h7 : (k == ("smoker")) = false) (h8 : (k == ("diabetes")) = false)
    (h9 : (k == ("met_min")) = false) :
    RiskEngine.mhf_risk_row ((k, v) :: row) = RiskEngine.mhf_risk_row row := by
  simp only [RiskEngine.mhf_risk_row,
    framingham_risk_cons_ne k v row h1 h2 h3 h4 h5 h6 h7 h8,
    rowGet_cons_ne k v row ("met_min") h9]

/-- The Framingham percentage of the shared witness row:
male, age 55 (10), TC 5.5 (2), HDL 1.1 (1), SBP 140 treated (4),
smoker (4), no diabetes (0) — 21 points, off-chart, 30.0%. -/
lemma rowNoMet_framingham : RiskEngine.framingham_risk_row rowNoMet = some 30 := by
  have hage : RiskEngine._age_points_ccs (Value.vnum 55) true = some 10 := by
    norm_num [RiskEngine._age_points_ccs, RiskEngine._to_float, MHF.pyRound,
      RiskEngine.AGE_THRESH_M]
  have hhdl : RiskEngine._hdl_points_ccs (RiskEngine._ensure_mmol_tc (some (11/10))) = some 1 := by
    norm_num [RiskEngine._hdl_points_ccs, RiskEngine._ensure_mmol_tc, RiskEngine._round2,
      MHF.pyRound]
  have htc : RiskEngine._tc_points_ccs (RiskEngine._ensure_mmol_tc (some (11/2))) true = some 2 := by
    norm_num [RiskEngine._tc_points_ccs, RiskEngine._ensure_mmol_tc, RiskEngine._round2,
      MHF.pyRound]
  have hsbp : RiskEngine._sbp_points_ccs (Value.vnum 140) true true = some 4 := by
    norm_num [RiskEngine._sbp_points_ccs, RiskEngine._to_float, MHF.pyRound]
  simp only [RiskEngine.framingham_risk_row, RiskEngine.framingham_risk_from_row,
    RiskEngine.framingham_points_from_row,
    show Row.get rowNoMet ("sex") = Value.vstr ("male") from rfl,
    show Row.get rowNoMet ("age") = Value.vnum 55 from rfl,
    show Row.get rowNoMet ("tc") = Value.vnum (11/2) from rfl,
    show Row.get rowNoMet ("hdl") = Value.vnum (11/10) from rfl,
    show Row.get rowNoMet ("sbp") = Value.vnum 140 from rfl,
    show Row.get rowNoMet ("on_bp_meds") = Value.vbool true from rfl,
    show Row.get rowNoMet ("smoker") = Value.vbool true from rfl,
    show Row.get rowNoMet ("diabetes") = Value.vbool false from rfl,
    show RiskEngine._is_male (Value.vstr ("male")) = true from rfl,
    show RiskEngine._to_float (Value.vnum (11/2)) = some (11/2) from rfl,
    show RiskEngine._to_float (Value.vnum (11/10)) = some (11/10) from rfl,
    show RiskEngine._to_bool (Value.vbool true) = true from rfl,
    hage, hhdl, htc, hsbp, RiskEngine._smoker_points_ccs, RiskEngine._diabetes_points_ccs,
    RiskEngine._to_bool, RiskEngine.SMOKER_PTS_M]
  norm_num [RiskEngine._risk_from_points_ccs]

/-- The same percentage for the row extended with `met_min`. -/
lemma rowFull_framingham : RiskEngine.framingham_risk_row rowFull = some 30 := by
  have h := framingham_risk_cons_ne ("met_min") (Value.vnum 1200) rowNoMet
    rfl rfl rfl rfl rfl rfl rfl rfl
  rw [show rowFull = (("met_min"), Value.vnum 1200) :: rowNoMet from rfl, h,
    rowNoMet_framingham]

/-! ## Claims -/

/-- C4: the cholesterol banding is invariant under the unit heuristic —
a mmol/L value `v ≤ 20` and its mg/dL form `v × 38.67` (when that
exceeds 20, so the heuristic divides it back) produce identical TC
points for either sex. -/
theorem tc_points_unit_invariant (male : Bool) (v : ℚ) (h1 : v ≤ 20)
    (h2 : 20 < v * RiskEngine.MGDL_PER_MMOLL) :
    RiskEngine._tc_points_ccs (RiskEngine._ensure_mmol_tc (some (v * RiskEngine.MGDL_PER_MMOLL))) male
      = RiskEngine._tc_points_ccs (RiskEngine._ensure_mmol_tc (some v)) male := by
  have hc : RiskEngine.MGDL_PER_MMOLL ≠ 0 := by norm_num [RiskEngine.MGDL_PER_MMOLL]
  have h3 : ¬(20 < v) := not_lt.mpr h1
  simp only [RiskEngine._ensure_mmol_tc, if_pos h2, if_neg h3]
  rw [mul_div_cancel_right₀ v hc]

/-- C4 witness: `tc = 5.5` mmol/L and `tc = 5.5 × 38.67 = 212.685`
mg/dL band to the same TC points. -/
theorem tc_points_unit_invariant_witness :
    RiskEngine._tc_points_ccs (RiskEngine._ensure_mmol_tc (some ((11/2) * RiskEngine.MGDL_PER_MMOLL))) true
      = RiskEngine._tc_points_ccs (RiskEngine._ensure_mmol_tc (some (11/2))) true :=
  tc_points_unit_invariant true (11/2) (by norm_num)
    (by norm_num [RiskEngine.MGDL_PER_MMOLL])

/-- C6 counterexample: at 6.5 hours the code scores the constant 7,
whereas linear interpolation between the adjacent bands (7 at hour 6,
10 on `[7,8]`) would give `7 + (10-7)·(6.5-6)/(7-6) = 8.5 ≠ 7`. -/
theorem sleep_interpolation_counterexample :
    Mortality._sleep_points (Value.vnum (13/2)) = some 7
  ∧ 7 + (10 - 7) * (((13/2 : ℚ) - 6) / (7 - 6)) = 17/2
  ∧ (7 : ℚ) ≠ 17/2 := by
  refine ⟨?_, by norm_num, by norm_num⟩
  norm_num [Mortality._sleep_points, Mortality._to_float]

/-- C6 amended: the sleep component maps `[7,8]` to 10, the exact
values 6 and 9 to 7, the exact values 5 and 10 to 3, values below 5 or
above 10 to 0, and non-integer hours in the gaps receive the constant
points of the adjacent boundary band — 7 on `(6,7)` and `(8,9)`, 3 on
`(5,6)` and `(9,10)` — not a linear interpolation. -/
theorem sleep_points_bands (v : ℚ) :
    (7 ≤ v ∧ v ≤ 8 → Mortality._sleep_points (Value.vnum v) = some 10)
  ∧ (v = 6 ∨ v = 9 → Mortality._sleep_points (Value.vnum v) = some 7)
  ∧ (v = 5 ∨ v = 10 → Mortality._sleep_points (Value.vnum v) = some 3)
  ∧ (v < 5 ∨ 10 < v → Mortality._sleep_points (Value.vnum v) = some 0)
  ∧ ((6 < v ∧ v < 7) ∨ (8 < v ∧ v < 9) → Mortality._sleep_points (Value.vnum v) = some 7)
  ∧ ((5 < v ∧ v < 6) ∨ (9 < v ∧ v < 10) → Mortality._sleep_points (Value.vnum v) = some 3) := by
  refine ⟨?_, ?_, ?_, ?_, ?_, ?_⟩ <;> intro h <;>
    simp only [Mortality._sleep_points, Mortality._to_float]
  · rw [if_pos h]
  · rcases h with rfl | rfl <;> norm_num
  · rcases h with rfl | rfl <;> norm_num
  · rcases h with h | h
    · rw [if_neg (by rintro ⟨h1, h2⟩; linarith),
          if_neg (by rintro (rfl | rfl) <;> linarith),
          if_neg (by rintro (rfl | rfl) <;> linarith),
          if_pos (Or.inl h)]
    · rw [if_neg (by rintro ⟨h1, h2⟩; linarith),
          if_neg (by rintro (rfl | rfl) <;> linarith),
          if_neg (by rintro (rfl | rfl) <;> linarith),
          if_pos (Or.inr h)]
  · rcases h with ⟨ha, hb⟩ | ⟨ha, hb⟩
    · rw [if_neg (by rintro ⟨h1, h2⟩; linarith),
          if_neg (by rintro (rfl | rfl) <;> linarith),
          if_neg (by rintro (rfl | rfl) <;> linarith),
          if_neg (by rintro (h1 | h1) <;> linarith),
          if_pos ⟨ha, hb⟩]
    · rw [if_neg (by rintro ⟨h1, h2⟩; linarith),
          if_neg (by rintro (rfl | rfl) <;> linarith),
          if_neg (by rintro (rfl | rfl) <;> linarith),
          if_neg (by rintro (h1 | h1) <;> linarith),
          if_neg (by rintro ⟨h1, h2⟩; linarith),
          if_pos ⟨ha, hb⟩]
  · rcases h with ⟨ha, hb⟩ | ⟨ha, hb⟩
    · rw [if_neg (by rintro ⟨h1, h2⟩; linarith),
          if_neg (by rintro (rfl | rfl) <;> linarith),
          if_neg (by rintro (rfl | rfl) <;> linarith),
          if_neg (by rintro (h1 | h1) <;> linarith),
          if_neg (by rintro ⟨h1, h2⟩; linarith),
          if_neg (by rintro ⟨h1, h2⟩; linarith),
          if_pos ⟨ha, hb⟩]
    · rw [if_neg (by rintro ⟨h1, h2⟩; linarith),
          if_neg (by rintro (rfl | rfl) <;> linarith),
          if_neg (by rintro (rfl | rfl) <;> linarith),
          if_neg (by rintro (h1 | h1) <;> linarith),
          if_neg (by rintro ⟨h1, h2⟩; linarith),
          if_neg (by rintro ⟨h1, h2⟩; linarith),
          if_neg (by rintro ⟨h1, h2⟩; linarith),
          if_pos ⟨ha, hb⟩]

/-- C6 witness: concrete hours in each regime. -/
theorem sleep_points_bands_witness :
    Mortality._sleep_points (Value.vnum (15/2)) = some 10
  ∧ Mortality._sleep_points (Value.vnum 9) = some 7
  ∧ Mortality._sleep_points (Value.vnum 5) = some 3
  ∧ Mortality._sleep_points (Value.vnum 11) = some 0
  ∧ Mortality._sleep_points (Value.vnum (13/2)) = some 7
  ∧ Mortality._sleep_points (Value.vnum (19/2)) = some 3 :=
  ⟨(sleep_points_bands (15/2)).1 (by norm_num),
   (sleep_points_bands 9).2.1 (Or.inr rfl),
   (sleep_points_bands 5).2.2.1 (Or.inl rfl),
   (sleep_points_bands 11).2.2.2.1 (Or.inr (by norm_num)),
   (sleep_points_bands (13/2)).2.2.2.2.1 (Or.inl (by norm_num)),
   (sleep_points_bands (19/2)).2.2.2.2.2 (Or.inr (by norm_num))⟩

/-- C2: with `low ≤ high`, every sample any distribution kind produces
lies in `[low, high]`: uniform from a unit draw, truncated normal from
an in-interval standardised draw, lognormal after the redraw loop and
final clamp, and beta after linear rescaling of a `[0,1]` draw. -/
theorem samples_within_bounds (low high : ℚ) (hlh : low ≤ high) :
    (∀ u q, 0 ≤ u → u < 1 →
       Sampling.sample_uniform low high u = Except.ok q → low ≤ q ∧ q ≤ high)
  ∧ (∀ mean sd z q, 0 < sd → (low - mean) / sd ≤ z → z ≤ (high - mean) / sd →
       Sampling.sample_normal low high mean sd z = Except.ok q → low ≤ q ∧ q ≤ high)
  ∧ (∀ d0 rs q,
       Sampling.sample_lognormal low high d0 rs = Except.ok q → low ≤ q ∧ q ≤ high)
  ∧ (∀ raw q, 0 ≤ raw → raw ≤ 1 →
       Sampling.sample_beta_scaled low high raw = Except.ok q → low ≤ q ∧ q ≤ high) := by
  refine ⟨?_, ?_, ?_, ?_⟩
  · intro u q hu0 hu1 hq
    simp only [Sampling.sample_uniform, Except.ok.injEq] at hq
    subst hq
    have hge : 0 ≤ (high - low) * u := mul_nonneg (by linarith) hu0
    have hle : (high - low) * u ≤ high - low :=
      mul_le_of_le_one_right (by linarith) (le_of_lt hu1)
    exact ⟨by linarith, by linarith⟩
  · intro mean sd z q hsd hz1 hz2 hq
    simp only [Sampling.sample_normal, Sampling._truncnorm_samples] at hq
    split_ifs at hq with hab
    simp only [Except.ok.injEq] at hq
    subst hq
    have h1 : low - mean ≤ z * sd := (div_le_iff₀ hsd).mp hz1
    have h2 : z * sd ≤ high - mean := (le_div_iff₀ hsd).mp hz2
    rw [mul_comm] at h1 h2
    exact ⟨by linarith, by linarith⟩
  · intro d0 rs q hq
    simp only [Sampling.sample_lognormal, Except.ok.injEq] at hq
    subst hq
    unfold Sampling.npClip
    exact ⟨le_min (le_max_right _ _) hlh, min_le_right _ _⟩
  · intro raw q hr0 hr1 hq
    simp only [Sampling.sample_beta_scaled, Except.ok.injEq] at hq
    subst hq
    have hge : 0 ≤ raw * (high - low) := mul_nonneg hr0 (by linarith)
    have hle : raw * (high - low) ≤ high - low :=
      mul_le_of_le_one_left (by linarith) hr1
    exact ⟨by linarith, by linarith⟩

/-- C2 witness: a uniform draw over `[0, 10]` at `u = 1/2`. -/
theorem samples_within_bounds_witness :
    Sampling.sample_uniform 0 10 (1/2) = Except.ok 5 ∧ (0 : ℚ) ≤ 5 ∧ (5 : ℚ) ≤ 10 :=
  ⟨by norm_num [Sampling.sample_uniform],
   (samples_within_bounds 0 10 (by norm_num)).1 (1/2) 5 (by norm_num) (by norm_num)
     (by norm_num [Sampling.sample_uniform])⟩

/-- C8 counterexample: with the all-zero weight vector `[0, 0, 0]` the
categorical sampler raises (the zero-sum renormalisation produces
invalid probabilities that `np.random.choice` rejects) instead of
falling back to a uniform split. -/
theorem all_zero_weights_counterexample :
    Sampling.sample_categorical [0, 0, 0] [1/2] = Except.error () := by
  norm_num [Sampling.sample_categorical]

/-- C8 amended: whenever the weights sum to zero (in particular when
every weight is zero) the categorical sampler fails with an error;
there is no uniform-split fallback. -/
theorem all_zero_weights_error (proportions draws : List ℚ)
    (h : proportions.sum = 0) :
    Sampling.sample_categorical proportions draws = Except.error () := by
  simp [Sampling.sample_categorical, h]

/-- C8 witness: the two-category all-zero weight vector errors. -/
theorem all_zero_weights_error_witness :
    Sampling.sample_categorical [0, 0] [1/4, 3/4] = Except.error () :=
  all_zero_weights_error [0, 0] [1/4, 3/4] (by norm_num)

/-- C9 counterexample: with bounds `low = 1 > high = 0` the uniform,
lognormal and beta samplers return values instead of failing fast. -/
theorem inverted_bounds_counterexample :
    Sampling.sample_uniform 1 0 (1/2) = Except.ok (1/2)
  ∧ Sampling.sample_lognormal 1 0 5 [] = Except.ok 0
  ∧ Sampling.sample_beta_scaled 1 0 (1/2) = Except.ok (1/2) :=
  ⟨by norm_num [Sampling.sample_uniform],
   by norm_num [Sampling.sample_lognormal, Sampling.lognormal_redraw, Sampling.npClip],
   by norm_num [Sampling.sample_beta_scaled]⟩

/-- C9 amended: with `low > high` only the truncated-normal sampler
fails fast (scipy rejects the empty truncation interval); the uniform,
lognormal and beta samplers silently return values. -/
theorem inverted_bounds_only_normal_raises
    (low high mean sd z u d0 raw : ℚ) (rs : List ℚ)
    (hsd : 0 < sd) (hinv : high < low) :
    Sampling.sample_normal low high mean sd z = Except.error ()
  ∧ (∃ q, Sampling.sample_uniform low high u = Except.ok q)
  ∧ (∃ q, Sampling.sample_lognormal low high d0 rs = Except.ok q)
  ∧ (∃ q, Sampling.sample_beta_scaled low high raw = Except.ok q) := by
  refine ⟨?_, ⟨_, rfl⟩, ⟨_, rfl⟩, ⟨_, rfl⟩⟩
  have hne : ¬((low - mean) / sd < (high - mean) / sd) := by
    intro hlt
    rw [div_lt_div_iff₀ hsd hsd] at hlt
    nlinarith
  simp [Sampling.sample_normal, Sampling._truncnorm_samples, hne]

/-- C1: the Framingham total is the sum of the six components in
source order (smoking and diabetes points are plain integers, so only
the four Option components can be indeterminate); the total is `none`
exactly when one of those components is `none`, an indeterminate total
makes the risk NaN, and in particular `age = None` alone forces
`points = None` and `risk = NaN`. -/
theorem framingham_all_or_nothing (row : Row) :
    (∀ a b c d : ℤ,
      RiskEngine._age_points_ccs (Row.get row ("age")) (RiskEngine._is_male (Row.get row ("sex"))) = some a →
      RiskEngine._hdl_points_ccs (RiskEngine._ensure_mmol_tc (RiskEngine._to_float (Row.get row ("hdl")))) = some b →
      RiskEngine._tc_points_ccs (RiskEngine._ensure_mmol_tc (RiskEngine._to_float (Row.get row ("tc")))) (RiskEngine._is_male (Row.get row ("sex"))) = some c →
      RiskEngine._sbp_points_ccs (Row.get row ("sbp")) (RiskEngine._to_bool (Row.get row ("on_bp_meds"))) (RiskEngine._is_male (Row.get row ("sex"))) = some d →
      RiskEngine.framingham_points_from_row row =
        some (a + b + c + d
          + RiskEngine._smoker_points_ccs (RiskEngine._is_male (Row.get row ("sex"))) (Row.get row ("smoker"))
          + RiskEngine._diabetes_points_ccs (RiskEngine._is_male (Row.get row ("sex"))) (Row.get row ("diabetes"))))
  ∧ (RiskEngine.framingham_points_from_row row = none ↔
      (RiskEngine._age_points_ccs (Row.get row ("age")) (RiskEngine._is_male (Row.get row ("sex"))) = none
       ∨ RiskEngine._hdl_points_ccs (RiskEngine._ensure_mmol_tc (RiskEngine._to_float (Row.get row ("hdl")))) = none
       ∨ RiskEngine._tc_points_ccs (RiskEngine._ensure_mmol_tc (RiskEngine._to_float (Row.get row ("tc")))) (RiskEngine._is_male (Row.get row ("sex"))) = none
       ∨ RiskEngine._sbp_points_ccs (Row.get row ("sbp")) (RiskEngine._to_bool (Row.get row ("on_bp_meds"))) (RiskEngine._is_male (Row.get row ("sex"))) = none))
  ∧ (RiskEngine.framingham_points_from_row row = none → RiskEngine.framingham_risk_from_row row = none)
  ∧ (Row.get row ("age") = Value.vnone →
      RiskEngine.framingham_points_from_row row = none
      ∧ RiskEngine.framingham_risk_from_row row = none) := by
  refine ⟨?_, ?_, ?_, ?_⟩
  · intro a b c d ha hb hc hd
    simp only [RiskEngine.framingham_points_from_row, ha, hb, hc, hd]
  · rcases hA : RiskEngine._age_points_ccs (Row.get row ("age")) (RiskEngine._is_male (Row.get row ("sex"))) with _ | a <;>
    rcases hB : RiskEngine._hdl_points_ccs (RiskEngine._ensure_mmol_tc (RiskEngine._to_float (Row.get row ("hdl")))) with _ | b <;>
    rcases hC : RiskEngine._tc_points_ccs (RiskEngine._ensure_mmol_tc (RiskEngine._to_float (Row.get row ("tc")))) (RiskEngine._is_male (Row.get row ("sex"))) with _ | c <;>
    rcases hD : RiskEngine._sbp_points_ccs (Row.get row ("sbp")) (RiskEngine._to_bool (Row.get row ("on_bp_meds"))) (RiskEngine._is_male (Row.get row ("sex"))) with _ | d <;>
      simp [RiskEngine.framingham_points_from_row, hA, hB, hC, hD]
  · intro hnone
    simp [RiskEngine.framingham_risk_from_row, hnone]
  · intro hage
    have hA : RiskEngine._age_points_ccs (Row.get row ("age")) (RiskEngine._is_male (Row.get row ("sex"))) = none := by
      rw [hage]; rfl
    have hpts : RiskEngine.framingham_points_from_row row = none := by
      simp [RiskEngine.framingham_points_from_row, hA]
    exact ⟨hpts, by simp [RiskEngine.framingham_risk_from_row, hpts]⟩

/-- C1 witness: `rowAgeNone` has every CVD field present and valid
except `age = None`; its points are `None` and its risk NaN. -/
theorem framingham_all_or_nothing_witness :
    RiskEngine.framingham_points_from_row rowAgeNone = none
  ∧ RiskEngine.framingham_risk_from_row rowAgeNone = none :=
  (framingham_all_or_nothing rowAgeNone).2.2.2 rfl

/-- C3: with a computable Framingham percentage `f` and a parsed
`met_min` of `m`, the MHF score is exactly
`f × (1 − min(0.3, 0.3·m/1000))` clamped to `[0, 100]`; a `cvd`
binding is ignored (no prior-CVD override); `m = 0` returns `f`
itself; and `m ≥ 1000` applies exactly the saturated 30% discount. -/
theorem mhf_adjustment_formula (row : Row) (f m : ℚ)
    (hf : RiskEngine.framingham_risk_row row = some f)
    (hm : RiskEngine._f (Row.get row ("met_min")) = some m) :
    RiskEngine.mhf_risk_row row
      = some (RiskEngine.npClip (f * (1 - min (3/10) (3/10 * (m / 1000)))) 0 100)
  ∧ (∀ v, RiskEngine.mhf_risk_row ((("cvd"), v) :: row) = RiskEngine.mhf_risk_row row)
  ∧ (m = 0 → RiskEngine.mhf_risk_row row = some f)
  ∧ (1000 ≤ m → RiskEngine.mhf_risk_row row
      = some (RiskEngine.npClip (f * (1 - 3/10)) 0 100)) := by
  have hmain : RiskEngine.mhf_risk_row row
      = some (RiskEngine.npClip (f * (1 - min (3/10) (3/10 * (m / 1000)))) 0 100) := by
    unfold RiskEngine.mhf_risk_row
    rw [hf, hm]
  obtain ⟨hb1, hb2⟩ := framinghamRisk_bounds row f hf
  refine ⟨hmain, fun v => mhf_cons_ne ("cvd") v row rfl rfl rfl rfl rfl rfl rfl rfl rfl, ?_, ?_⟩
  · intro h0
    subst h0
    rw [hmain, show (3/10 : ℚ) * ((0 : ℚ) / 1000) = 0 by norm_num,
      min_eq_right (by norm_num : (0 : ℚ) ≤ 3/10)]
    rw [sub_zero, mul_one, npClip_id f (by linarith) (by linarith)]
  · intro h1000
    have hm1 : (1 : ℚ) ≤ m / 1000 := by
      rw [le_div_iff₀ (by norm_num : (0 : ℚ) < 1000)]
      linarith
    have hmin : min (3/10 : ℚ) (3/10 * (m / 1000)) = 3/10 :=
      min_eq_left (by nlinarith)
    rw [hmain, hmin]

/-- C3 witness: the witness row has Framingham 30% and
`met_min = 1200 ≥ 1000`, so the MHF score is the fully discounted,
clamped `30 × 0.7`. -/
theorem mhf_adjustment_formula_witness :
    RiskEngine.mhf_risk_row rowFull
      = some (RiskEngine.npClip (30 * (1 - 3/10)) 0 100) :=
  (mhf_adjustment_formula rowFull 30 1200 rowFull_framingham rfl).2.2.2 (by norm_num)

/-- C5: the Lee point total is `None` exactly when age is NaN (missing
or unparseable) or below 50, and is a non-null integer for every row
whose age parses to at least 50. -/
theorem lee_points_age_rule (row : Row) :
    (Mortality.lee_points_from_row row = none ↔
       Mortality._to_float (Row.get row ("age")) = none
       ∨ ∃ a : ℚ, Mortality._to_float (Row.get row ("age")) = some a ∧ a < 50)
  ∧ (∀ a : ℚ, Mortality._to_float (Row.get row ("age")) = some a → 50 ≤ a →
       ∃ n : ℤ, Mortality.lee_points_from_row row = some n) := by
  rcases hA : Mortality._to_float (Row.get row ("age")) with _ | a
  · constructor
    · simp [Mortality.lee_points_from_row, hA]
    · intro a ha
      cases ha
  · by_cases hlt : a < 50
    · have hnone : Mortality.lee_points_from_row row = none := by
        simp [Mortality.lee_points_from_row, hA, hlt]
      constructor
      · simp [hnone, hlt]
      · intro a1 ha1 h50
        cases ha1
        exact absurd h50 (not_le.mpr hlt)
    · have hne : Mortality.lee_points_from_row row ≠ none := by
        simp [Mortality.lee_points_from_row, hA, hlt]
      constructor
      · constructor
        · intro h0
          exact absurd h0 hne
        · rintro (h0 | ⟨a1, ha1, hlt1⟩)
          · cases h0
          · cases ha1
            exact absurd hlt1 hlt
      · intro a1 ha1 h50
        exact Option.ne_none_iff_exists'.mp hne

/-- C5 witness: `age = 45` gives a `None` Lee total, `age = 50` a
non-null one. -/
theorem lee_points_age_rule_witness :
    Mortality.lee_points_from_row [(("age"), Value.vnum 45)] = none
  ∧ ∃ n : ℤ, Mortality.lee_points_from_row [(("age"), Value.vnum 50)] = some n :=
  ⟨(lee_points_age_rule [(("age"), Value.vnum 45)]).1.mpr
      (Or.inr ⟨45, rfl, by norm_num⟩),
   (lee_points_age_rule [(("age"), Value.vnum 50)]).2 50 rfl (by norm_num)⟩

/-- C7 counterexample: a row with every CVD field valid but `met_min`
absent; the MHF score is the numeric 30.0 (the missing field was
coerced to `0.0`, giving no activity discount), not `None`/NaN as the
claim requires. -/
theorem mhf_missing_met_min_counterexample :
    Row.get rowNoMet ("met_min") = Value.vnone
  ∧ RiskEngine.mhf_risk_row rowNoMet = some 30 := by
  refine ⟨rfl, ?_⟩
  simp only [RiskEngine.mhf_risk_row, rowNoMet_framingham,
    show RiskEngine._f (Row.get rowNoMet ("met_min")) = some 0 from rfl]
  rw [show (3/10 : ℚ) * ((0 : ℚ) / 1000) = 0 by norm_num,
    min_eq_right (by norm_num : (0 : ℚ) ≤ 3/10), sub_zero, mul_one,
    npClip_id 30 (by norm_num) (by norm_num)]

/-- C7 amended: a missing (`None`) or unparseable `met_min` is coerced
to the numeric placeholder `0.0` by `_f`; the MHF score is then
computed with zero activity discount and equals the base Framingham
percentage — indeterminacy propagates only from the Framingham
inputs, never from `met_min`. -/
theorem mhf_met_min_placeholder (row : Row) (f : ℚ)
    (hf : RiskEngine.framingham_risk_row row = some f) :
    RiskEngine._f Value.vnone = some 0
  ∧ (∀ s, pyParseFloat s = none → RiskEngine._f (Value.vstr s) = some 0)
  ∧ (RiskEngine._f (Row.get row ("met_min")) = some 0 →
      RiskEngine.mhf_risk_row row = some f) := by
  obtain ⟨hb1, hb2⟩ := framinghamRisk_bounds row f hf
  refine ⟨rfl, ?_, ?_⟩
  · intro s hs
    simp [RiskEngine._f, hs]
  · intro h0
    simp only [RiskEngine.mhf_risk_row, hf, h0]
    rw [show (3/10 : ℚ) * ((0 : ℚ) / 1000) = 0 by norm_num,
      min_eq_right (by norm_num : (0 : ℚ) ≤ 3/10), sub_zero, mul_one,
      npClip_id f (by linarith) (by linarith)]

/-- C7 amended witness: the placeholder coercion and the resulting
numeric score on the concrete row without `met_min`. -/
theorem mhf_met_min_placeholder_witness :
    RiskEngine._f Value.vnone = some 0
  ∧ RiskEngine.mhf_risk_row rowNoMet = some 30 :=
  ⟨(mhf_met_min_placeholder rowNoMet 30 rowNoMet_framingham).1,
   (mhf_met_min_placeholder rowNoMet 30 rowNoMet_framingham).2.2 rfl⟩

/-- C10: boolean coercion is total — `_to_bool` is true exactly on the
boolean `True`, numbers unequal to zero (NaN compares unequal), and
strings whose stripped lower-case form is a truthy token; it is false
on `None` and every other value; the mortality module's copy agrees
everywhere; hence the smoking and diabetes components are always 0 or
the fixed sex-specific value, never indeterminate. -/
theorem to_bool_characterization :
    (∀ v : Value, RiskEngine._to_bool v = true ↔
      (v = Value.vbool true
       ∨ (∃ q : ℚ, v = Value.vnum q ∧ q ≠ 0)
       ∨ v = Value.vnan
       ∨ (∃ s : String, v = Value.vstr s
            ∧ pyLower (pyStrip s) ∈ [("1"), ("true"), ("t"), ("yes"), ("y"), ("on")])))
  ∧ (∀ v, Mortality._to_bool v = RiskEngine._to_bool v)
  ∧ (∀ (male : Bool) (v : Value),
       RiskEngine._smoker_points_ccs male v = 0
       ∨ RiskEngine._smoker_points_ccs male v = (if male then 4 else 3))
  ∧ (∀ (male : Bool) (v : Value),
       RiskEngine._diabetes_points_ccs male v = 0
       ∨ RiskEngine._diabetes_points_ccs male v = (if male then 3 else 4)) := by
  refine ⟨?_, ?_, ?_, ?_⟩
  · intro v
    cases v <;> simp [RiskEngine._to_bool]
  · intro v
    cases v <;> rfl
  · intro male v
    cases hb : RiskEngine._to_bool v
    · left
      simp [RiskEngine._smoker_points_ccs, hb]
    · right
      cases male <;>
        simp [RiskEngine._smoker_points_ccs, hb, RiskEngine.SMOKER_PTS_M,
          RiskEngine.SMOKER_PTS_W]
  · intro male v
    cases hb : RiskEngine._to_bool v
    · left
      simp [RiskEngine._diabetes_points_ccs, hb]
    · right
      cases male <;>
        simp [RiskEngine._diabetes_points_ccs, hb, RiskEngine.DIAB_PTS_M,
          RiskEngine.DIAB_PTS_W]

/-- C10 witness: the truthy string `" Yes "` coerces to true. -/
theorem to_bool_characterization_witness :
    RiskEngine._to_bool (Value.vstr (" Yes ")) = true :=
  (to_bool_characterization.1 (Value.vstr (" Yes "))).mpr
    (Or.inr (Or.inr (Or.inr ⟨(" Yes "), rfl, by decide⟩)))

/-- C9 amended witness: bounds `1 > 0` with unit standard deviation. -/
theorem inverted_bounds_only_normal_raises_witness :
    Sampling.sample_normal 1 0 0 1 0 = Except.error ()
  ∧ (∃ q, Sampling.sample_uniform 1 0 (1/2) = Except.ok q)
  ∧ (∃ q, Sampling.sample_lognormal 1 0 5 [] = Except.ok q)
  ∧ (∃ q, Sampling.sample_beta_scaled 1 0 (1/2) = Except.ok q) :=
  inverted_bounds_only_normal_raises 1 0 0 1 0 (1/2) 5 (1/2) []
    (by norm_num) (by norm_num)

end MHF
